import Mathlib

/-!
Verification development for the `mcp_postgres` server
(`src/mcp_postgres/server.py`): a read-only PostgreSQL gateway exposing
four request handlers (list-resources, read-resource, list-tools,
call-tool).  The handlers are shallowly embedded as pure Lean functions
over an explicit environment that records which database/pool operations
succeed or fail, mirroring the Python control flow (`try`/`except
psycopg2.Error`/`finally`) statement by statement.  Each handler's
outcome records, besides its returned value or raised exception, the
number of pool connections successfully checked out (`getconn` calls
that returned a connection) and returned (`putconn` calls that actually
executed), and the sequence of SQL commands issued on the borrowed
connection, so that the pool-balance and read-only-transaction
invariants can be stated and proved.
-/

/-- Python exception kinds that can surface from the embedded handlers.
`valueError` models `ValueError` (validation failures), `pgError` models
`psycopg2.Error` (driver/pool/database failures, carrying `str(e)`),
`indexError` models `IndexError`, and `nameError` models the
`NameError` raised when a `finally` clause evaluates `putconn(conn)`
while the local `conn` was never bound (because `getconn` itself, or
code before it, raised). -/
inductive PyExc where
  | valueError (msg : String)
  | pgError (msg : String)
  | indexError
  | nameError
deriving DecidableEq, Repr

/-- Whitespace recognizer matching Python `str.strip()` /
`str.split()` defaults on the ASCII range (space, tab, newline,
carriage return, vertical tab, form feed). -/
def pyIsSpace (c : Char) : Bool :=
  c = ' ' || c = '\t' || c = '\n' || c = '\r' || c = '\x0b' || c = '\x0c'

/-- Python `str.strip()` on a character list: drop leading and trailing
whitespace. -/
def pyStripList (cs : List Char) : List Char :=
  ((cs.dropWhile pyIsSpace).reverse.dropWhile pyIsSpace).reverse

/-- Python `str.strip()`. -/
def pyStrip (s : String) : String :=
  ⟨pyStripList s.data⟩

/-- ASCII case folding of one character, as Python `str.lower()` acts on
the ASCII range (all inputs relevant here are ASCII SQL keywords). -/
def pyLowerChar (c : Char) : Char :=
  if 'A' ≤ c && c ≤ 'Z' then Char.ofNat (c.toNat + 32) else c

/-- Python `str.lower()` (ASCII fragment). -/
def pyLower (s : String) : String :=
  ⟨s.data.map pyLowerChar⟩

/-- Python `str.startswith(p)`. -/
def pyStartsWith (s p : String) : Bool :=
  s.data.take p.data.length == p.data

/-- Python `str.split(sep)` for a one-character separator: splits on
every occurrence, keeping empty fragments, and returns `[""]` on the
empty string. -/
def pySplitChar (sep : Char) : List Char → List (List Char)
  | [] => [[]]
  | c :: rest =>
    let r := pySplitChar sep rest
    if c = sep then [] :: r
    else
      match r with
      | [] => [[c]]
      | g :: gs => (c :: g) :: gs

/-- Python `uri.split('/')`. -/
def pySplitSlash (s : String) : List String :=
  (pySplitChar '/' s.data).map fun cs => ⟨cs⟩

/-- Python negative indexing `l[-2]`: the second-to-last element, or
`none` (an `IndexError`) when the list has fewer than two elements. -/
def pyIndexNeg2 {α : Type} (l : List α) : Option α :=
  if 2 ≤ l.length then l.get? (l.length - 2) else none

/-- SQL commands the query tool issues on the borrowed connection:
the explicit read-only transaction start, the caller's statement, and
transaction termination commands.  `commit` never occurs in any trace
produced by the embedding; it exists so that its absence is a
meaningful statement. -/
inductive SqlCmd where
  | beginReadOnly
  | stmt (sql : String)
  | rollback
  | commit
deriving DecidableEq, Repr

/-- One `cur.execute` call on the borrowed connection: the command that
was issued and whether the database executed it successfully (`ok =
false` means the call raised `psycopg2.Error`). -/
structure SqlEvent where
  cmd : SqlCmd
  ok : Bool
deriving DecidableEq, Repr

/-- Abstract database session state used to interpret a trace of SQL
events: the committed data (of an arbitrary type `α`) plus the working
copy of an open transaction, if any. -/
structure TxState (α : Type) where
  committed : α
  pending : Option α

/-- Effect of one SQL event on the session: a failed event changes
nothing; `BEGIN` opens a transaction over the committed data; a
statement executed inside a transaction only updates the working copy;
`ROLLBACK` discards the working copy; `COMMIT` (never issued by this
program) would install it. -/
def stepEvent {α : Type} (applyStmt : α → String → α)
    (st : TxState α) (e : SqlEvent) : TxState α :=
  if e.ok = false then st
  else
    match e.cmd with
    | .beginReadOnly => ⟨st.committed, some st.committed⟩
    | .stmt s =>
      match st.pending with
      | some w => ⟨st.committed, some (applyStmt w s)⟩
      | none => ⟨applyStmt st.committed s, none⟩
    | .rollback => ⟨st.committed, none⟩
    | .commit =>
      match st.pending with
      | some w => ⟨w, none⟩
      | none => st

/-- Interpretation of a whole event trace. -/
def runEvents {α : Type} (applyStmt : α → String → α)
    (st : TxState α) (es : List SqlEvent) : TxState α :=
  es.foldl (stepEvent applyStmt) st

/-- Fault/result environment for one `call-tool` invocation.  Each
`Option String` field is `none` when the corresponding operation
succeeds and `some msg` when it raises `psycopg2.Error` with message
`msg`: `getconn` is `self.pool.getconn()`, `cursor` is
`conn.cursor()`, `beginTx` is `cur.execute("BEGIN TRANSACTION READ
ONLY")`, `execStmt` is `cur.execute(sql)`, `fetch` is
`cur.fetchall()`, and `rollbackTx` is the `cur.execute("ROLLBACK")` in
the inner `finally`.  `cols` models `cur.description`'s column names
and `rows` the fetched rows (cell values rendered as strings). -/
structure QueryEnv where
  getconn : Option String
  cursor : Option String
  beginTx : Option String
  execStmt : Option String
  fetch : Option String
  rollbackTx : Option String
  cols : List String
  rows : List (List String)

/-- Environment in which every database operation succeeds and the
result set is empty. -/
def noFault : QueryEnv :=
  ⟨none, none, none, none, none, none, [], []⟩

/-- Content of one returned `TextContent`.  The source serializes both
shapes into the `text` field (via `str({...})` for results and an
f-string for errors); the embedding keeps the structured value, since
the claims concern its content rather than Python's `str` rendering.
`queryResult` carries the column names, the rows as
`dict(zip(columns, row))` association lists, and `row_count`;
`errorMsg` carries the `"查询执行失败: " + str(e)` error text. -/
inductive ToolPayload where
  | queryResult (columns : List String)
      (rows : List (List (String × String))) (rowCount : Nat)
  | errorMsg (msg : String)
deriving DecidableEq, Repr

/-- Observable outcome of one `call-tool` invocation: the returned
payload list or raised exception, the number of successful `getconn`
calls, the number of executed `putconn` calls, and the SQL events
issued on the borrowed connection. -/
structure ToolOutcome where
  result : Except PyExc (List ToolPayload)
  acquired : Nat
  released : Nat
  events : List SqlEvent
deriving Repr

/-- Shallow embedding of `handle_call_tool` (server.py lines 148-190).
Control flow mirrors the Python source: a name other than `"query"`
raises `ValueError("未知工具: ...")`; `arguments.get("sql", "")` is
stripped, the empty result raises `ValueError("SQL查询不能为空")` and a
result not starting with `select` (case-insensitively) raises
`ValueError("仅支持SELECT查询")`, all before the `try` block, so no
connection is touched.  Inside the `try`, a failing `getconn` is caught
by `except psycopg2.Error` (which returns an error payload), but the
`finally` clause then evaluates `putconn(conn)` with `conn` unbound, so
the invocation raises `NameError` instead; once `conn` is bound, every
later `psycopg2.Error` (cursor creation, transaction start, statement,
fetch, rollback) is caught and returned as an `errorMsg` payload while
`putconn` executes, and the inner `try`/`finally` issues `ROLLBACK`
whenever the `BEGIN` succeeded.  When the statement or fetch fails and
the `ROLLBACK` also fails, the rollback's error replaces the original
one, as in Python. -/
def handle_call_tool (env : QueryEnv) (name : String)
    (argSql : Option String) : ToolOutcome :=
  if name ≠ "query" then
    ⟨.error (.valueError ("未知工具: " ++ name)), 0, 0, []⟩
  else
    let sql := pyStrip (argSql.getD "")
    if sql = "" then
      ⟨.error (.valueError "SQL查询不能为空"), 0, 0, []⟩
    else if pyStartsWith (pyLower sql) "select" = false then
      ⟨.error (.valueError "仅支持SELECT查询"), 0, 0, []⟩
    else
      match env.getconn with
      | some _ => ⟨.error .nameError, 0, 0, []⟩
      | none =>
        match env.cursor with
        | some m => ⟨.ok [.errorMsg ("查询执行失败: " ++ m)], 1, 1, []⟩
        | none =>
          match env.beginTx with
          | some m =>
            ⟨.ok [.errorMsg ("查询执行失败: " ++ m)], 1, 1,
              [⟨.beginReadOnly, false⟩]⟩
          | none =>
            match env.execStmt with
            | some m =>
              match env.rollbackTx with
              | some m2 =>
                ⟨.ok [.errorMsg ("查询执行失败: " ++ m2)], 1, 1,
                  [⟨.beginReadOnly, true⟩, ⟨.stmt sql, false⟩,
                   ⟨.rollback, false⟩]⟩
              | none =>
                ⟨.ok [.errorMsg ("查询执行失败: " ++ m)], 1, 1,
                  [⟨.beginReadOnly, true⟩, ⟨.stmt sql, false⟩,
                   ⟨.rollback, true⟩]⟩
            | none =>
              match env.fetch with
              | some m =>
                match env.rollbackTx with
                | some m2 =>
                  ⟨.ok [.errorMsg ("查询执行失败: " ++ m2)], 1, 1,
                    [⟨.beginReadOnly, true⟩, ⟨.stmt sql, true⟩,
                     ⟨.rollback, false⟩]⟩
                | none =>
                  ⟨.ok [.errorMsg ("查询执行失败: " ++ m)], 1, 1,
                    [⟨.beginReadOnly, true⟩, ⟨.stmt sql, true⟩,
                     ⟨.rollback, true⟩]⟩
              | none =>
                match env.rollbackTx with
                | some m2 =>
                  ⟨.ok [.errorMsg ("查询执行失败: " ++ m2)], 1, 1,
                    [⟨.beginReadOnly, true⟩, ⟨.stmt sql, true⟩,
                     ⟨.rollback, false⟩]⟩
                | none =>
                  ⟨.ok [.queryResult env.cols
                      (env.rows.map fun row => env.cols.zip row)
                      env.rows.length], 1, 1,
                    [⟨.beginReadOnly, true⟩, ⟨.stmt sql, true⟩,
                     ⟨.rollback, true⟩]⟩

/-- One row of the `information_schema.columns` catalog for a table, as
selected by `handle_read_resource`'s first query: the physical ordinal
position (used only for `ORDER BY ordinal_position`), `column_name`,
`data_type`, `is_nullable` (the catalog's `'YES'`/`'NO'` string) and
the optional column comment from `col_description`. -/
structure CatColumn where
  ordinal : Nat
  name : String
  dataType : String
  isNullable : String
  comment : Option String
deriving DecidableEq, Repr

/-- One row of the `pg_constraint` join in `handle_read_resource`'s
second query: constraint name and the single-character kind code. -/
structure CatConstraint where
  conname : String
  contype : String
deriving DecidableEq, Repr

/-- The database's catalog, abstracted: for each table name (the value
bound to the `%s` parameter) the `information_schema.columns` rows and
the `pg_constraint` rows the two fixed catalog queries would return.
The column rows are stored unordered; the query itself applies `ORDER
BY ordinal_position`. -/
structure Catalog where
  columnsOf : String → List CatColumn
  constraintsOf : String → List CatConstraint

/-- Catalog with no tables. -/
def emptyCatalog : Catalog :=
  ⟨fun _ => [], fun _ => []⟩

/-- Insertion of a column row into a list sorted by ordinal. -/
def insertByOrdinal (c : CatColumn) : List CatColumn → List CatColumn
  | [] => [c]
  | d :: ds =>
    if c.ordinal ≤ d.ordinal then c :: d :: ds
    else d :: insertByOrdinal c ds

/-- Insertion sort by ordinal position, modelling the
`ORDER BY ordinal_position` clause of the column query. -/
def sortByOrdinal : List CatColumn → List CatColumn
  | [] => []
  | c :: cs => insertByOrdinal c (sortByOrdinal cs)

/-- The two parameterized catalog queries `handle_read_resource`
issues.  Each constructor is one fixed SQL template (the literal query
text in the source, which never interpolates the table name) together
with the value bound to its single `%s` parameter. -/
inductive CatalogQuery where
  | columnsOf (table : String)
  | constraintsOf (table : String)
deriving DecidableEq, Repr

/-- One entry of the returned schema document's `columns` list:
`{'name': col[0], 'type': col[1], 'nullable': col[2] == 'YES',
'description': col[3]}`. -/
structure ColumnInfo where
  name : String
  type : String
  nullable : Bool
  description : Option String
deriving DecidableEq, Repr

/-- One entry of the returned schema document's `constraints` list:
`{'name': con[0], 'type': con[1]}`. -/
structure ConstraintInfo where
  name : String
  type : String
deriving DecidableEq, Repr

/-- The schema document `handle_read_resource` builds (the source then
renders it with Python `str`; the claims concern its content). -/
structure SchemaDoc where
  columns : List ColumnInfo
  constraints : List ConstraintInfo
deriving DecidableEq, Repr

/-- Fault environment for one `read-resource` invocation: whether
`getconn`, `conn.cursor()`, the column query, or the constraint query
raises `psycopg2.Error`, and the catalog the queries read from. -/
structure ReadEnv where
  getconn : Option String
  cursor : Option String
  q1 : Option String
  q2 : Option String
  catalog : Catalog

/-- Read environment in which every operation succeeds over the given
catalog. -/
def readEnvOk (cat : Catalog) : ReadEnv :=
  ⟨none, none, none, none, cat⟩

/-- Observable outcome of one `read-resource` invocation: result or
exception, pool counters, and the catalog queries issued (with their
bound parameter). -/
structure ReadOutcome where
  result : Except PyExc SchemaDoc
  acquired : Nat
  released : Nat
  queries : List CatalogQuery
deriving Repr

/-- Shallow embedding of `handle_read_resource` (server.py lines
76-126).  `table_name = uri.split('/')[-2]` runs first, inside the
`try`: when the URI splits into fewer than two fragments the indexing
raises `IndexError`, which `except psycopg2.Error` does not catch, and
the `finally` clause then evaluates `putconn(conn)` with `conn` unbound
so the invocation surfaces `NameError` (the `IndexError` is masked).  A
failing `getconn` is caught and re-raised but likewise masked by the
`NameError` from the `finally`.  Once `conn` is bound, a
`psycopg2.Error` from cursor creation or either catalog query is
re-raised unchanged after `putconn` executes; on success the two
queries run with the table name bound as the `%s` parameter, the column
rows ordered by ordinal position, and the schema document is built with
`nullable` equal to `is_nullable == 'YES'`. -/
def handle_read_resource (env : ReadEnv) (uri : String) : ReadOutcome :=
  match pyIndexNeg2 (pySplitSlash uri) with
  | none => ⟨.error .nameError, 0, 0, []⟩
  | some table_name =>
    match env.getconn with
    | some _ => ⟨.error .nameError, 0, 0, []⟩
    | none =>
      match env.cursor with
      | some m => ⟨.error (.pgError m), 1, 1, []⟩
      | none =>
        match env.q1 with
        | some m =>
          ⟨.error (.pgError m), 1, 1, [.columnsOf table_name]⟩
        | none =>
          match env.q2 with
          | some m =>
            ⟨.error (.pgError m), 1, 1,
              [.columnsOf table_name, .constraintsOf table_name]⟩
          | none =>
            let cols := sortByOrdinal (env.catalog.columnsOf table_name)
            let cons := env.catalog.constraintsOf table_name
            ⟨.ok ⟨cols.map fun c =>
                ⟨c.name, c.dataType, c.isNullable == "YES", c.comment⟩,
              cons.map fun k => ⟨k.conname, k.contype⟩⟩, 1, 1,
              [.columnsOf table_name, .constraintsOf table_name]⟩

/-- One row of the table-listing query in `handle_list_resources`:
table name and the optional table comment from `obj_description`. -/
structure TableRow where
  name : String
  comment : Option String
deriving DecidableEq, Repr

/-- Fault environment for one `list-resources` invocation: whether
`getconn`, `conn.cursor()` or the listing query raises
`psycopg2.Error`, the rows the query returns, and the configured
display host used to build resource URIs. -/
structure ListEnv where
  getconn : Option String
  cursor : Option String
  q : Option String
  tables : List TableRow
  host : String

/-- One resource descriptor, as built by `handle_list_resources`. -/
structure ResourceDesc where
  uri : String
  name : String
  description : Option String
  mimeType : String
deriving DecidableEq, Repr

/-- Python truthiness of `table[1] if table[1] else None`: an absent or
empty comment becomes `None`. -/
def pyTruthyStr : Option String → Option String
  | some s => if s = "" then none else some s
  | none => none

/-- Observable outcome of one `list-resources` invocation. -/
structure ListOutcome where
  result : Except PyExc (List ResourceDesc)
  acquired : Nat
  released : Nat
deriving Repr

/-- Shallow embedding of `handle_list_resources` (server.py lines
44-74).  A failing `getconn` is caught and re-raised but masked by the
`NameError` from `putconn(conn)` in the `finally` clause (`conn`
unbound); once `conn` is bound, a `psycopg2.Error` from cursor creation
or the listing query is re-raised unchanged after `putconn` executes;
on success each table row becomes a descriptor with URI
`postgres://{host}/{table}/schema`, name `{table} schema`, the comment
as description when non-empty, and mime type `application/json`. -/
def handle_list_resources (env : ListEnv) : ListOutcome :=
  match env.getconn with
  | some _ => ⟨.error .nameError, 0, 0⟩
  | none =>
    match env.cursor with
    | some m => ⟨.error (.pgError m), 1, 1⟩
    | none =>
      match env.q with
      | some m => ⟨.error (.pgError m), 1, 1⟩
      | none =>
        ⟨.ok (env.tables.map fun t =>
          ⟨"postgres://" ++ env.host ++ "/" ++ t.name ++ "/schema",
           t.name ++ " schema", pyTruthyStr t.comment,
           "application/json"⟩), 1, 1⟩

/-- Concrete catalog for the two-column example table `items`:
`(id int not null, name text)`, no comments, no constraints.  The
column rows are deliberately stored out of ordinal order so that the
`ORDER BY ordinal_position` modelling is exercised. -/
def itemsCatalog : Catalog :=
  ⟨fun t =>
    if t = "items" then
      [⟨2, "name", "text", "YES", none⟩, ⟨1, "id", "int", "NO", none⟩]
    else [],
   fun _ => []⟩

/-- The `psycopg2.Error` message that reaches the `except` handler of
`handle_call_tool` when some post-acquire database operation fails:
the first failing operation's message, except that when the statement
or the fetch fails and the `ROLLBACK` in the inner `finally` also
fails, the rollback's error replaces the original one (Python `finally`
semantics). -/
def surfacedError (env : QueryEnv) : String :=
  match env.cursor with
  | some m => m
  | none =>
    match env.beginTx with
    | some m => m
    | none =>
      match env.execStmt with
      | some m =>
        match env.rollbackTx with
        | some m2 => m2
        | none => m
      | none =>
        match env.fetch with
        | some m =>
          match env.rollbackTx with
          | some m2 => m2
          | none => m
        | none =>
          match env.rollbackTx with
          | some m2 => m2
          | none => ""

/-- Helper: a string that is entirely whitespace strips to the empty
string. -/
theorem pyStrip_of_all_space (s : String)
    (h : s.data.all pyIsSpace = true) : pyStrip s = "" := by
  have h1 : s.data.dropWhile pyIsSpace = [] := by
    rw [List.dropWhile_eq_nil_iff]
    intro x hx
    exact List.all_eq_true.mp h x hx
  unfold pyStrip pyStripList
  rw [h1]
  rfl

/-- C3 counterexample: at the concrete input `name="query"`,
`arguments={sql: "DROP TABLE users"}`, the handler does NOT return a
successful tool response with a textual rejection — it raises the
`NonSelectQuery` `ValueError` to the caller (the result is an
exception, not an `.ok` payload), contradicting the claim as stated. -/
theorem drop_table_result_is_raised_error :
    (handle_call_tool noFault "query" (some "DROP TABLE users")).result =
      .error (.valueError "仅支持SELECT查询") := by
  rfl

/-- C3 (amended): `call-tool` with `name="query"` and
`sql="DROP TABLE users"` fails with the `NonSelectQuery` error
(`ValueError("仅支持SELECT查询")`) raised to the caller, before any pool
connection is acquired and without issuing any SQL command, so the
database (in particular the `users` table) is unchanged; and `call-tool`
with every name other than `"query"` (e.g. `"delete_all"`), whatever
its arguments, fails with the `UnknownTool` error
(`ValueError("未知工具: " + name)`) with no connection acquired and no
SQL issued. -/
theorem drop_table_rejected_and_unknown_tool_fails (env : QueryEnv) :
    handle_call_tool env "query" (some "DROP TABLE users") =
      ⟨.error (.valueError "仅支持SELECT查询"), 0, 0, []⟩ ∧
    (∀ (name : String), name ≠ "query" →
      ∀ (argSql : Option String),
        handle_call_tool env name argSql =
          ⟨.error (.valueError ("未知工具: " ++ name)), 0, 0, []⟩) ∧
    (∀ (α : Type) (applyStmt : α → String → α) (db : α),
      (runEvents applyStmt ⟨db, none⟩
        (handle_call_tool env "query" (some "DROP TABLE users")).events).committed
        = db) := by
  refine ⟨rfl, ?_, fun α applyStmt db => rfl⟩
  intro name hn argSql
  simp [handle_call_tool, hn]

/-- Witness for C3 (amended) at the concrete unknown tool name
`"delete_all"` with the `DROP TABLE` argument. -/
theorem drop_table_rejected_and_unknown_tool_fails_witness :
    handle_call_tool noFault "delete_all" (some "DROP TABLE users") =
      ⟨.error (.valueError ("未知工具: " ++ "delete_all")), 0, 0, []⟩ :=
  (drop_table_rejected_and_unknown_tool_fails noFault).2.1 "delete_all"
    (by decide) (some "DROP TABLE users")

/-- C4: an `sql` argument that is empty or consists only of whitespace
is rejected with the `EmptyQuery` error (`ValueError("SQL查询不能为空")`)
before any pool connection is acquired: no `getconn` call succeeds, no
`putconn` runs, and no SQL command is issued, whatever the database
environment. -/
theorem empty_query_rejected_before_acquire (env : QueryEnv) (s : String)
    (h : s.data.all pyIsSpace = true) :
    handle_call_tool env "query" (some s) =
      ⟨.error (.valueError "SQL查询不能为空"), 0, 0, []⟩ := by
  have hs : pyStrip s = "" := pyStrip_of_all_space s h
  simp [handle_call_tool, hs]

/-- Witness for C4 at the concrete whitespace-only input `" \t "`. -/
theorem empty_query_rejected_before_acquire_witness :
    handle_call_tool noFault "query" (some " \t ") =
      ⟨.error (.valueError "SQL查询不能为空"), 0, 0, []⟩ :=
  empty_query_rejected_before_acquire noFault " \t " (by decide)

/-- C5 counterexample: the whitespace-only input `" "` does not start
with `select` after trimming, yet the query tool fails with the
`EmptyQuery` error `ValueError("SQL查询不能为空")`, not the
`NonSelectQuery` error `ValueError("仅支持SELECT查询")` the claim
requires — the two messages differ, so the claim fails at this input. -/
theorem nonselect_claim_fails_on_blank_input :
    pyStartsWith (pyLower (pyStrip " ")) "select" = false ∧
    (handle_call_tool noFault "query" (some " ")).result =
      .error (.valueError "SQL查询不能为空") ∧
    PyExc.valueError "SQL查询不能为空" ≠ PyExc.valueError "仅支持SELECT查询" := by
  refine ⟨by decide, by rfl, by decide⟩

/-- C5 (amended): an `sql` argument that is non-empty after trimming
and does not start with `select` case-insensitively is rejected with
the `NonSelectQuery` error (`ValueError("仅支持SELECT查询")`) before any
pool connection is acquired: no `getconn` call succeeds, no `putconn`
runs, and no SQL command is issued, whatever the database
environment. -/
theorem nonselect_rejected_before_acquire (env : QueryEnv) (s : String)
    (h1 : pyStrip s ≠ "")
    (h2 : pyStartsWith (pyLower (pyStrip s)) "select" = false) :
    handle_call_tool env "query" (some s) =
      ⟨.error (.valueError "仅支持SELECT查询"), 0, 0, []⟩ := by
  simp [handle_call_tool, h1, h2]

/-- Witness for C5 (amended) at the concrete input `"DELETE FROM t"`. -/
theorem nonselect_rejected_before_acquire_witness :
    handle_call_tool noFault "query" (some "DELETE FROM t") =
      ⟨.error (.valueError "仅支持SELECT查询"), 0, 0, []⟩ :=
  nonselect_rejected_before_acquire noFault "DELETE FROM t"
    (by decide) (by decide)

/-- C8: on the table `items` with columns `(id int not null, name
text)` (stored in the catalog out of order, with `name` listed first)
and no constraints, `read-resource` returns a schema document whose
columns appear in physical ordinal order `[{id, int, nullable:false},
{name, text, nullable:true}]` — `nullable` computed as the catalog's
`is_nullable` field equalling `'YES'` — and whose constraints list is
empty. -/
theorem describe_table_ordinal_and_nullable :
    (handle_read_resource (readEnvOk itemsCatalog)
        "postgres://db.example.com/items/schema").result =
      .ok ⟨[⟨"id", "int", false, none⟩, ⟨"name", "text", true, none⟩],
           []⟩ := by
  rfl

/-- C9: when `call-tool` is invoked with `name="query"` and an
arguments mapping with no `sql` key, `arguments.get("sql", "")`
substitutes the empty string and the handler fails with the same
`EmptyQuery` error as for an explicitly empty `sql` argument, before
any pool connection is acquired. -/
theorem missing_sql_key_treated_as_empty (env : QueryEnv) :
    handle_call_tool env "query" none =
      handle_call_tool env "query" (some "") ∧
    handle_call_tool env "query" none =
      ⟨.error (.valueError "SQL查询不能为空"), 0, 0, []⟩ := by
  exact ⟨rfl, rfl⟩

/-- C2: for every invocation of each connection-using handler
(`call-tool`, `read-resource`, `list-resources`), under every fault
environment, the number of pool connections checked out (successful
`getconn` calls — a `getconn` that raises checks out nothing) equals
the number of `putconn` calls that execute, on the normal path and on
every error path, including the paths where the acquire itself or work
done before the acquire fails. -/
theorem pool_acquire_release_balanced :
    (∀ (env : QueryEnv) (name : String) (argSql : Option String),
      (handle_call_tool env name argSql).acquired =
        (handle_call_tool env name argSql).released) ∧
    (∀ (env : ReadEnv) (uri : String),
      (handle_read_resource env uri).acquired =
        (handle_read_resource env uri).released) ∧
    (∀ (env : ListEnv),
      (handle_list_resources env).acquired =
        (handle_list_resources env).released) := by
  refine ⟨?_, ?_, ?_⟩
  · rintro ⟨g, cu, b, ex, f, r, cols, rows⟩ name argSql
    by_cases hn : name = "query"
    · subst hn
      by_cases he : pyStrip (argSql.getD "") = ""
      · simp [handle_call_tool, he]
      · by_cases hs :
          pyStartsWith (pyLower (pyStrip (argSql.getD ""))) "select" = false
        · simp [handle_call_tool, he, hs]
        · cases g <;> cases cu <;> cases b <;> cases ex <;> cases f <;>
            cases r <;> simp [handle_call_tool, he, hs]
    · simp [handle_call_tool, hn]
  · rintro ⟨g, cu, q1, q2, cat⟩ uri
    rcases hsplit : pyIndexNeg2 (pySplitSlash uri) with _ | t <;>
      cases g <;> cases cu <;> cases q1 <;> cases q2 <;>
        simp [handle_read_resource, hsplit]
  · rintro ⟨g, cu, q, tables, host⟩
    cases g <;> cases cu <;> cases q <;> simp [handle_list_resources]

/-- C1: for every SQL string accepted by the query tool's validation
(non-empty after trimming and beginning, case-insensitively, with
`select`) and every fault environment: no `COMMIT` is ever issued on
the connection; whenever the caller's statement is issued, the trace
starts with a successfully executed `BEGIN TRANSACTION READ ONLY`;
whenever the `BEGIN` succeeded, a `ROLLBACK` is issued as the last
command of the trace — including when executing the statement or
fetching rows raises a database error; and consequently, under the
transactional interpretation of the trace, the committed database
state after the invocation equals the state before it for every
possible statement semantics. -/
theorem query_tool_readonly_no_commit (env : QueryEnv) (s : String)
    (h1 : pyStrip s ≠ "")
    (h2 : pyStartsWith (pyLower (pyStrip s)) "select" = true) :
    (∀ e ∈ (handle_call_tool env "query" (some s)).events,
      e.cmd ≠ SqlCmd.commit) ∧
    (∀ q b,
      SqlEvent.mk (SqlCmd.stmt q) b ∈
          (handle_call_tool env "query" (some s)).events →
      (handle_call_tool env "query" (some s)).events.head? =
        some ⟨SqlCmd.beginReadOnly, true⟩) ∧
    (SqlEvent.mk SqlCmd.beginReadOnly true ∈
        (handle_call_tool env "query" (some s)).events →
      ∃ b, (handle_call_tool env "query" (some s)).events.getLast? =
        some ⟨SqlCmd.rollback, b⟩) ∧
    (∀ (α : Type) (applyStmt : α → String → α) (db : α),
      (runEvents applyStmt ⟨db, none⟩
        (handle_call_tool env "query" (some s)).events).committed = db) := by
  rcases env with ⟨g, cu, b, ex, f, r, cols, rows⟩
  cases g <;> cases cu <;> cases b <;> cases ex <;> cases f <;> cases r <;>
    refine ⟨?_, ?_, ?_, ?_⟩ <;>
      simp [handle_call_tool, h1, h2, runEvents, stepEvent]

/-- Witness for C1 at the accepted query `"SELECT 1"` in the fault-free
environment, applied to a concrete statement semantics: the committed
state is unchanged. -/
theorem query_tool_readonly_no_commit_witness :
    (runEvents (fun n _ => n + 1) ⟨0, none⟩
      (handle_call_tool noFault "query" (some "SELECT 1")).events).committed
      = 0 :=
  (query_tool_readonly_no_commit noFault "SELECT 1"
    (by decide) (by decide)).2.2.2 Nat (fun n _ => n + 1) 0

/-- C6 counterexample: at the concrete URI `"users"` (a single path
segment, so fewer than two `'/'`-separated segments), `read-resource`
does not fail with a dedicated `InvalidResourceURI` error: the
`uri.split('/')[-2]` indexing raises `IndexError`, and the `finally`
clause then evaluates `putconn(conn)` with `conn` unbound, so the
invocation surfaces `NameError` — an internal unbound-local failure —
with no connection acquired and no catalog query issued. -/
theorem short_uri_fails_with_name_error :
    (handle_read_resource (readEnvOk emptyCatalog) "users").result =
      .error PyExc.nameError ∧
    (handle_read_resource (readEnvOk emptyCatalog) "users").acquired = 0 ∧
    (handle_read_resource (readEnvOk emptyCatalog) "users").queries = [] := by
  exact ⟨rfl, rfl, rfl⟩

/-- C6 (amended): for every resource URI, the table name bound into the
catalog queries is exactly the URI's second-to-last `'/'`-separated
path segment; and if the URI has fewer than two path segments the
handler fails — not with a dedicated `InvalidResourceURI` error, but
with the `IndexError` of the indexing masked by the `NameError` of the
cleanup clause — before acquiring a connection or issuing any
query. -/
theorem read_resource_second_to_last_segment (env : ReadEnv)
    (uri : String) :
    (∀ t, pyIndexNeg2 (pySplitSlash uri) = some t →
      ∀ q ∈ (handle_read_resource env uri).queries,
        q = CatalogQuery.columnsOf t ∨ q = CatalogQuery.constraintsOf t) ∧
    (pyIndexNeg2 (pySplitSlash uri) = none →
      handle_read_resource env uri =
        ⟨.error PyExc.nameError, 0, 0, []⟩) := by
  rcases env with ⟨g, cu, q1, q2, cat⟩
  constructor
  · intro t ht q hq
    cases g <;> cases cu <;> cases q1 <;> cases q2 <;>
      simp [handle_read_resource, ht] at hq
    all_goals tauto
  · intro hnone
    simp [handle_read_resource, hnone]

/-- Witness for C6 (amended) at the concrete short URI `"tables"`. -/
theorem read_resource_second_to_last_segment_witness :
    handle_read_resource (readEnvOk emptyCatalog) "tables" =
      ⟨.error PyExc.nameError, 0, 0, []⟩ :=
  (read_resource_second_to_last_segment (readEnvOk emptyCatalog)
    "tables").2 (by decide)

/-- C7: a `psycopg2.Error` raised during the query tool's execution
phase — once the connection is checked out: cursor creation,
transaction start, the statement itself, the fetch, or the rollback —
is caught and converted into a normal tool response whose text content
is the error message `"查询执行失败: " + str(e)` (the surfaced message
being the first failing operation's, or the rollback's when the
rollback also fails), never an exception; whereas in the
schema-introspection handlers (`list-resources`, `read-resource`) a
`psycopg2.Error` raised after the connection is checked out (cursor
creation or either catalog query) propagates unchanged to the caller
as a handler failure.  (A `getconn` failure itself is outside this
execution phase: per the error taxonomy it surfaces as a handler
failure for all handlers.) -/
theorem db_error_caught_for_query_raised_for_schema :
    (∀ (env : QueryEnv) (s : String),
      pyStrip s ≠ "" →
      pyStartsWith (pyLower (pyStrip s)) "select" = true →
      env.getconn = none →
      (env.cursor ≠ none ∨ env.beginTx ≠ none ∨ env.execStmt ≠ none ∨
        env.fetch ≠ none ∨ env.rollbackTx ≠ none) →
      (handle_call_tool env "query" (some s)).result =
        .ok [ToolPayload.errorMsg ("查询执行失败: " ++ surfacedError env)]) ∧
    (∀ (env : ListEnv) (m : String),
      env.getconn = none →
      (env.cursor = some m ∨ (env.cursor = none ∧ env.q = some m)) →
      (handle_list_resources env).result = .error (.pgError m)) ∧
    (∀ (env : ReadEnv) (uri t m : String),
      pyIndexNeg2 (pySplitSlash uri) = some t →
      env.getconn = none →
      (env.cursor = some m ∨ (env.cursor = none ∧ env.q1 = some m) ∨
        (env.cursor = none ∧ env.q1 = none ∧ env.q2 = some m)) →
      (handle_read_resource env uri).result = .error (.pgError m)) := by
  refine ⟨?_, ?_, ?_⟩
  · rintro ⟨g, cu, b, ex, f, r, cols, rows⟩ s h1 h2 hg hfault
    cases hg
    cases cu <;> cases b <;> cases ex <;> cases f <;> cases r <;>
      simp [handle_call_tool, surfacedError, h1, h2]
    simp at hfault
  · rintro ⟨g, cu, q, tables, host⟩ m hg hfault
    cases hg
    rcases hfault with hcu | ⟨hcu, hq⟩
    · cases hcu
      simp [handle_list_resources]
    · cases hcu
      cases hq
      simp [handle_list_resources]
  · rintro ⟨g, cu, q1, q2, cat⟩ uri t m ht hg hfault
    cases hg
    rcases hfault with hcu | ⟨hcu, hq1⟩ | ⟨hcu, hq1, hq2⟩
    · cases hcu
      simp [handle_read_resource, ht]
    · cases hcu
      cases hq1
      simp [handle_read_resource, ht]
    · cases hcu
      cases hq1
      cases hq2
      simp [handle_read_resource, ht]

/-- Witness for C7: a failing statement in the query tool yields a
normal error-text response; a failing listing query and a failing
column query in the schema handlers propagate as `pgError`
failures. -/
theorem db_error_caught_for_query_raised_for_schema_witness :
    (handle_call_tool ⟨none, none, none, some "boom", none, none, [], []⟩
        "query" (some "select 1")).result =
      .ok [ToolPayload.errorMsg ("查询执行失败: " ++
        surfacedError ⟨none, none, none, some "boom", none, none, [], []⟩)] ∧
    (handle_list_resources ⟨none, none, some "down", [], "h"⟩).result =
      .error (.pgError "down") ∧
    (handle_read_resource ⟨none, none, some "down2", none, emptyCatalog⟩
        "h/users/schema").result = .error (.pgError "down2") :=
  ⟨db_error_caught_for_query_raised_for_schema.1
      ⟨none, none, none, some "boom", none, none, [], []⟩ "select 1"
      (by decide) (by decide) rfl (by simp),
   db_error_caught_for_query_raised_for_schema.2.1
      ⟨none, none, some "down", [], "h"⟩ "down" rfl (by simp),
   db_error_caught_for_query_raised_for_schema.2.2
      ⟨none, none, some "down2", none, emptyCatalog⟩ "h/users/schema"
      "users" "down2" (by decide) rfl (by simp)⟩

/-- C10: `read-resource` never inspects the URI's scheme or host: for
any two URIs whose second-to-last `'/'`-separated segment is the same
table name `t`, the handler's outcome (result, pool counters, and
issued queries) is identical, and on the fault-free path the issued
catalog queries are exactly the two fixed templates with `t` bound as
their parameter (never interpolated into the query text, which the
`CatalogQuery` constructors keep separate from the datum). -/
theorem read_resource_ignores_scheme_and_host (env : ReadEnv)
    (u1 u2 t : String)
    (h1 : pyIndexNeg2 (pySplitSlash u1) = some t)
    (h2 : pyIndexNeg2 (pySplitSlash u2) = some t) :
    handle_read_resource env u1 = handle_read_resource env u2 ∧
    (env.getconn = none → env.cursor = none → env.q1 = none →
      env.q2 = none →
      (handle_read_resource env u1).queries =
        [CatalogQuery.columnsOf t, CatalogQuery.constraintsOf t]) := by
  constructor
  · simp [handle_read_resource, h1, h2]
  · intro hg hc hq1 hq2
    simp [handle_read_resource, h1, hg, hc, hq1, hq2]

/-- Witness for C10: a full `postgres://` URI and a bare two-segment
URI with the same second-to-last segment `users` produce identical
outcomes. -/
theorem read_resource_ignores_scheme_and_host_witness :
    handle_read_resource (readEnvOk emptyCatalog)
        "postgres://db.example.com/users/schema" =
      handle_read_resource (readEnvOk emptyCatalog) "x/users/schema" :=
  (read_resource_ignores_scheme_and_host (readEnvOk emptyCatalog)
    "postgres://db.example.com/users/schema" "x/users/schema" "users"
    (by decide) (by decide)).1
